import Mathlib

/-!
Verification of the analysis-task workflow engine of the backupAudit
repository: the `StateDerivation` pure function
(`src/frontend/src/utils/taskUtils.js`, `deriveTaskDisplayState`) and the
polling scheduler embedded in `src/frontend/src/pages/JobDetailsPage.jsx`
(the two `useEffect` blocks of `JobDetailsPage`).

The data model mirrors the TaskRecord shape exchanged with the remote
agent pipeline.  JavaScript string comparison with `===` is modelled by
decidable equality on `String`; optional / possibly-absent fields become
`Option`.  A `triage_decision` object whose `is_sufficient` field is
neither exactly `true` nor exactly `false` (for example the empty object)
is modelled by `is_sufficient = none`.
-/

/-- The `result.triage_decision` nested object: `is_sufficient` is absent
or a boolean; any non-boolean JavaScript value fails both `=== true` and
`=== false` and so is modelled by `none`. -/
structure TriageDecision where
  is_sufficient : Option Bool
deriving DecidableEq, Repr

/-- The `result.ai_analysis` nested object (present only at `finalized`;
not inspected by the derivation, carried for faithfulness). -/
structure AiAnalysis where
  problem_summary : String
  probable_cause : String
  recommended_action : String
deriving DecidableEq, Repr

/-- The optional `result` structure of a TaskRecord. -/
structure ResultData where
  triage_decision : Option TriageDecision
  ai_analysis : Option AiAnalysis
deriving DecidableEq, Repr

/-- The TaskRecord exchanged with the remote agent pipeline. -/
structure TaskRecord where
  id : Nat
  task_type : String
  status : String
  result : Option ResultData
deriving DecidableEq, Repr

/-- The `{ status, message }` display tuple returned by the derivation. -/
structure DisplayState where
  status : String
  message : String
deriving DecidableEq, Repr

/-- The optional chain `task.result?.triage_decision`. -/
def triageOf (t : TaskRecord) : Option TriageDecision :=
  t.result.bind (fun r => r.triage_decision)

/-- Embedding of `deriveTaskDisplayState` from
`src/frontend/src/utils/taskUtils.js`.  The nested JavaScript
conditionals with implicit fallthrough to the final
`return { status: loading, message: Analysis in progress... }` are
rendered with an inner `Option`-valued block and `Option.getD` for the
fallthrough. -/
def deriveTaskDisplayState (task : Option TaskRecord) : DisplayState :=
  match task with
  | none => { status := "initializing", message := "Creating analysis task..." }
  | some t =>
    if t.status = "finalized" then
      { status := "success", message := "Analysis Complete!" }
    else if t.status = "failed" then
      { status := "error", message := "Analysis Failed. Check agent logs." }
    else
      (if t.task_type = "GET_JOB_DETAILS" then
        if t.status = "pending" ∨ t.status = "processing" then
          some { status := "loading",
                 message := "Requesting initial details from on-premises agent..." }
        else if t.status = "complete" then
          match triageOf t with
          | none =>
            some { status := "loading",
                   message := "Initial data received. Performing AI triage..." }
          | some td =>
            if td.is_sufficient = some true then
              some { status := "loading",
                     message := "Triage complete. Finalizing analysis..." }
            else if td.is_sufficient = some false then
              some { status := "loading",
                     message := "Triage complete. Agent is now fetching detailed logs..." }
            else
              none
        else
          none
      else
        none).getD { status := "loading", message := "Analysis in progress..." }

example :
    deriveTaskDisplayState none =
      { status := "initializing", message := "Creating analysis task..." } := by
  decide

example :
    deriveTaskDisplayState
      (some { id := 1, task_type := "GET_JOB_DETAILS", status := "pending", result := none }) =
      { status := "loading",
        message := "Requesting initial details from on-premises agent..." } := by
  decide

/-- Helper: whenever the record is present and its status is neither
`finalized` nor `failed`, every branch of the derivation yields the
display status `loading`. -/
lemma derive_status_loading_of_not_terminal (t : TaskRecord)
    (hf : ¬ t.status = "finalized") (hfa : ¬ t.status = "failed") :
    (deriveTaskDisplayState (some t)).status = "loading" := by
  simp only [deriveTaskDisplayState]
  rw [if_neg hf, if_neg hfa]
  rcases htd : triageOf t with _ | td <;>
    simp only [htd] <;> split_ifs <;> rfl

/-- C6: for every TaskRecord with `status == finalized`, the derivation
returns status `success`, regardless of every other field of the record
(`task_type`, `result`, `triage_decision`, `ai_analysis`). -/
theorem derive_finalized_success (t : TaskRecord) (h : t.status = "finalized") :
    (deriveTaskDisplayState (some t)).status = "success" := by
  simp only [deriveTaskDisplayState]
  rw [if_pos h]

/-- Witness for `derive_finalized_success` at a concrete finalized record
with populated result fields. -/
theorem derive_finalized_success_witness :
    (deriveTaskDisplayState
      (some { id := 7, task_type := "SOMETHING_ELSE", status := "finalized",
              result := some { triage_decision := some { is_sufficient := some false },
                               ai_analysis := some { problem_summary := "s",
                                                     probable_cause := "c",
                                                     recommended_action := "a" } } })).status
      = "success" :=
  derive_finalized_success _ rfl

/-- C7: the derivation returns status `error` exactly for present records
with `status == failed`; an absent record and every record whose status is
not `failed` derive to a status other than `error`. -/
theorem derive_error_iff_failed (o : Option TaskRecord) :
    (deriveTaskDisplayState o).status = "error" ↔
      ∃ t, o = some t ∧ t.status = "failed" := by
  cases o with
  | none => simp [deriveTaskDisplayState]
  | some t =>
    by_cases hf : t.status = "finalized"
    · rw [derive_finalized_success t hf]
      simp [hf]
    · by_cases hfa : t.status = "failed"
      · simp [deriveTaskDisplayState, hf, hfa]
      · rw [derive_status_loading_of_not_terminal t hf hfa]
        simp [hfa]

/-- C9: the derivation is a deterministic pure function; applying it twice
to the same input (present record or absent) yields identical outputs. -/
theorem derive_idempotent (o : Option TaskRecord) :
    deriveTaskDisplayState o = deriveTaskDisplayState o := rfl

/-- C10: a record of type `GET_JOB_DETAILS` with status `complete` and a
present `triage_decision` whose `is_sufficient` is neither exactly `true`
nor exactly `false` falls through every specific branch to the generic
fallback `loading / Analysis in progress...`. -/
theorem derive_unrecognized_isSufficient_fallback (t : TaskRecord) (td : TriageDecision)
    (h1 : t.task_type = "GET_JOB_DETAILS") (h2 : t.status = "complete")
    (h3 : triageOf t = some td)
    (h4 : ¬ td.is_sufficient = some true) (h5 : ¬ td.is_sufficient = some false) :
    deriveTaskDisplayState (some t) =
      { status := "loading", message := "Analysis in progress..." } := by
  simp [deriveTaskDisplayState, h1, h2, h3, h4, h5]

/-- Witness for `derive_unrecognized_isSufficient_fallback`: an empty
triage-decision object (no `is_sufficient` field at all). -/
theorem derive_unrecognized_isSufficient_fallback_witness :
    deriveTaskDisplayState
      (some { id := 3, task_type := "GET_JOB_DETAILS", status := "complete",
              result := some { triage_decision := some { is_sufficient := none },
                               ai_analysis := none } }) =
      { status := "loading", message := "Analysis in progress..." } :=
  derive_unrecognized_isSufficient_fallback _ _ rfl rfl rfl (by decide) (by decide)

/-- C2 counterexample: a record with status `complete`, no
`triage_decision`, and a task type other than `GET_JOB_DETAILS` derives to
the generic fallback message, not to the triage-in-progress message, so
the claim does not hold for every `task_type`. -/
theorem derive_complete_noTriage_otherType_counterexample :
    deriveTaskDisplayState
        (some { id := 4, task_type := "RESTORE_AUDIT", status := "complete",
                result := some { triage_decision := none, ai_analysis := none } }) =
      { status := "loading", message := "Analysis in progress..." } ∧
    ("Analysis in progress..." : String) ≠ "Initial data received. Performing AI triage..." := by
  constructor
  · decide
  · decide

/-- C2 amended: for every record with `task_type == GET_JOB_DETAILS`,
status `complete`, and no `triage_decision` reachable through `result`,
the derivation returns `loading` with the triage-in-progress message. -/
theorem derive_complete_noTriage_triageMessage (t : TaskRecord)
    (h1 : t.task_type = "GET_JOB_DETAILS") (h2 : t.status = "complete")
    (h3 : triageOf t = none) :
    deriveTaskDisplayState (some t) =
      { status := "loading", message := "Initial data received. Performing AI triage..." } := by
  simp [deriveTaskDisplayState, h1, h2, h3]

/-- Witness for `derive_complete_noTriage_triageMessage`: the Scenario B
record, status complete with an empty result object. -/
theorem derive_complete_noTriage_triageMessage_witness :
    deriveTaskDisplayState
      (some { id := 5, task_type := "GET_JOB_DETAILS", status := "complete",
              result := some { triage_decision := none, ai_analysis := none } }) =
      { status := "loading", message := "Initial data received. Performing AI triage..." } :=
  derive_complete_noTriage_triageMessage _ rfl rfl rfl

/-!
Embedding of the polling engine of `JobDetailsPage`
(`src/frontend/src/pages/JobDetailsPage.jsx`).

The component state is the React `useState` quintuple
(`job` is omitted: it is CRUD data outside the engine): `task`,
`pollingError`, `error` (the fatal initialization error) and
`isInitializing`, together with the polling `useEffect` resource: whether
an interval is currently installed (`intervalActive`).  Because the
interval callback is `async`, several fetches may be in flight at once;
`inflight` records the identifiers of fetches that have been issued but
not yet answered, `nextFetchId` is a fresh-name counter and
`fetchesIssued` counts every fetch ever issued.

The polling `useEffect` has dependency array `[task]`: every application
of a fetched record re-runs it (clearing the previous interval and
installing a new one unless the cached record is terminal), while a
failed fetch only touches `pollingError` and leaves the interval alone.
-/

/-- Engine state of `JobDetailsPage`: component state plus the polling
interval resource and in-flight fetch bookkeeping. -/
structure EngineState where
  task : Option TaskRecord
  pollingError : Option String
  error : Option String
  isInitializing : Bool
  intervalActive : Bool
  inflight : List Nat
  nextFetchId : Nat
  fetchesIssued : Nat
deriving DecidableEq, Repr

/-- Terminal statuses per the polling guard:
`task.status === finalized || task.status === failed`. -/
def isTerminal (t : TaskRecord) : Bool :=
  t.status == "finalized" || t.status == "failed"

/-- Re-run of the polling `useEffect`: the previous interval (if any) is
cleared, and a new one is installed unless there is no task or the cached
task is terminal (`if (!task || task.status === finalized || task.status
=== failed) return;`). -/
def pollingEffect (s : EngineState) : EngineState :=
  { s with intervalActive :=
      match s.task with
      | none => false
      | some t => !(isTerminal t) }

/-- `setTask(response.data)`: the cached record is replaced wholesale by
the fetched one and, since `task` is in the dependency array, the polling
effect re-runs. -/
def applyRecord (r : TaskRecord) (s : EngineState) : EngineState :=
  pollingEffect { s with task := some r }

/-- The message passed to `setPollingError` in the interval callback's
catch block. -/
def pollingErrorMessage : String := "Connection to the server was lost. Retrying..."

/-- State before `startAnalysisWorkflow` resolves. -/
def initialState : EngineState :=
  { task := none, pollingError := none, error := none, isInitializing := true,
    intervalActive := false, inflight := [], nextFetchId := 0, fetchesIssued := 0 }

/-- Successful completion of `startAnalysisWorkflow`: the created record
is stored and the polling effect runs against it. -/
def applyInitSuccess (r : TaskRecord) (s : EngineState) : EngineState :=
  pollingEffect { s with task := some r, error := none, isInitializing := false }

/-- Failed `startAnalysisWorkflow`: the catch block stores the fatal
error, no TaskRecord is stored, and the polling effect (seeing no task)
installs no interval. -/
def applyInitFailure (msg : String) (s : EngineState) : EngineState :=
  pollingEffect { s with error := some msg, isInitializing := false }

/-- Events of the single-threaded event loop: an interval tick (which
issues a fetch after calling `setPollingError(null)`), or the arrival of
the response to in-flight fetch `i` — `some r` when `getTaskResult`
succeeded with record `r`, `none` when it failed. -/
inductive PollEvent where
  | tick : PollEvent
  | respond : Nat → Option TaskRecord → PollEvent
deriving DecidableEq, Repr

/-- One event-loop step; `none` when the event cannot occur in this state
(a tick with no interval installed, or a response to a fetch that is not
in flight). -/
def step (s : EngineState) : PollEvent → Option EngineState
  | PollEvent.tick =>
    if s.intervalActive then
      some { s with pollingError := none,
                    inflight := s.inflight ++ [s.nextFetchId],
                    nextFetchId := s.nextFetchId + 1,
                    fetchesIssued := s.fetchesIssued + 1 }
    else
      none
  | PollEvent.respond i res =>
    if i ∈ s.inflight then
      let s1 := { s with inflight := s.inflight.erase i }
      match res with
      | some r => some (applyRecord r s1)
      | none => some { s1 with pollingError := some pollingErrorMessage }
    else
      none

/-- Run a sequence of event-loop events; `none` as soon as one event is
not enabled. -/
def runEvents (s : EngineState) : List PollEvent → Option EngineState
  | [] => some s
  | e :: es => (step s e).bind (fun s1 => runEvents s1 es)

/-- A concrete non-terminal record, as returned by task creation. -/
def recPending : TaskRecord :=
  { id := 1, task_type := "GET_JOB_DETAILS", status := "pending", result := none }

/-- A concrete non-terminal record carried by a poll response. -/
def recProcessing : TaskRecord :=
  { id := 1, task_type := "GET_JOB_DETAILS", status := "processing", result := none }

/-- A concrete terminal record carried by a poll response. -/
def recFinalized : TaskRecord :=
  { id := 1, task_type := "GET_JOB_DETAILS", status := "finalized",
    result := some { triage_decision := some { is_sufficient := some true },
                     ai_analysis := none } }

/-- State right after a successful workflow start on a pending task. -/
def startedState : EngineState := applyInitSuccess recPending initialState

example : startedState.intervalActive = true := by decide

example : step startedState PollEvent.tick ≠ none := by decide

/-- Helper: a tick is enabled only when an interval is installed. -/
lemma step_tick_eq (s : EngineState) (h : s.intervalActive = true) :
    step s PollEvent.tick =
      some { s with pollingError := none,
                    inflight := s.inflight ++ [s.nextFetchId],
                    nextFetchId := s.nextFetchId + 1,
                    fetchesIssued := s.fetchesIssued + 1 } := by
  simp [step, h]

/-- Helper: effect of a failed response to an in-flight fetch. -/
lemma step_respond_fail_eq (s : EngineState) (i : Nat) (h : i ∈ s.inflight) :
    step s (PollEvent.respond i none) =
      some { s with inflight := s.inflight.erase i,
                    pollingError := some pollingErrorMessage } := by
  simp [step, h]

/-- Helper: effect of a successful response to an in-flight fetch. -/
lemma step_respond_success_eq (s : EngineState) (i : Nat) (r : TaskRecord)
    (h : i ∈ s.inflight) :
    step s (PollEvent.respond i (some r)) =
      some (applyRecord r { s with inflight := s.inflight.erase i }) := by
  simp [step, h]

/-- Helper: with no interval installed and no fetch in flight, no event is
enabled. -/
lemma step_dead (s : EngineState) (h1 : s.intervalActive = false)
    (h2 : s.inflight = []) (e : PollEvent) : step s e = none := by
  cases e with
  | tick => simp [step, h1]
  | respond i res => simp [step, h2]

/-- Helper: a dead engine state never changes again. -/
lemma runEvents_dead (s : EngineState) (h1 : s.intervalActive = false)
    (h2 : s.inflight = []) :
    ∀ tr s1, runEvents s tr = some s1 → s1 = s := by
  intro tr s1 h
  cases tr with
  | nil =>
    simp only [runEvents, Option.some.injEq] at h
    exact h.symm
  | cons e es =>
    rw [runEvents, step_dead s h1 h2 e] at h
    simp at h

/-- C5: when the one-shot task-creation call fails, the fatal error is
surfaced, no TaskRecord is stored, no interval is ever installed and no
poll fetch is ever issued, in every possible subsequent execution. -/
theorem init_failure_workflow_never_starts (msg : String) (tr : List PollEvent)
    (s1 : EngineState)
    (h : runEvents (applyInitFailure msg initialState) tr = some s1) :
    s1.error = some msg ∧ s1.task = none ∧ s1.intervalActive = false ∧
      s1.fetchesIssued = 0 := by
  have hdead := runEvents_dead (applyInitFailure msg initialState) rfl rfl tr s1 h
  subst hdead
  exact ⟨rfl, rfl, rfl, rfl⟩

/-- Witness for `init_failure_workflow_never_starts` on the concrete
fallback error message and the empty continuation. -/
theorem init_failure_workflow_never_starts_witness :
    (applyInitFailure "An error occurred." initialState).error = some "An error occurred." ∧
    (applyInitFailure "An error occurred." initialState).task = none ∧
    (applyInitFailure "An error occurred." initialState).intervalActive = false ∧
    (applyInitFailure "An error occurred." initialState).fetchesIssued = 0 :=
  init_failure_workflow_never_starts "An error occurred." []
    (applyInitFailure "An error occurred." initialState) rfl

/-- C4: a tick whose fetch fails leaves the cached TaskRecord, the fatal
error, the initialization flag and the in-flight bookkeeping exactly as
they were; the transient polling error is surfaced and the interval stays
installed, so the next tick is still scheduled. -/
theorem tick_failure_transient (s s1 : EngineState)
    (hfresh : s.nextFetchId ∉ s.inflight)
    (h : runEvents s [PollEvent.tick, PollEvent.respond s.nextFetchId none] = some s1) :
    s1.task = s.task ∧ s1.pollingError = some pollingErrorMessage ∧
      s1.error = s.error ∧ s1.isInitializing = s.isInitializing ∧
      s1.intervalActive = true ∧ s1.inflight = s.inflight := by
  cases hact : s.intervalActive with
  | false =>
    rw [runEvents] at h
    rw [show step s PollEvent.tick = none by simp [step, hact]] at h
    simp at h
  | true =>
    have hmem : s.nextFetchId ∈ s.inflight ++ [s.nextFetchId] := by simp
    have herase : (s.inflight ++ [s.nextFetchId]).erase s.nextFetchId = s.inflight := by
      rw [List.erase_append_right _ hfresh]
      simp
    rw [runEvents, step_tick_eq s hact, Option.some_bind, runEvents,
      step_respond_fail_eq _ _ hmem, Option.some_bind, runEvents,
      Option.some.injEq] at h
    subst h
    refine ⟨rfl, rfl, rfl, rfl, hact, herase⟩

/-- Witness state for `tick_failure_transient`: the engine right after a
failed first poll tick from `startedState`. -/
def tickFailWitnessEnd : EngineState :=
  { startedState with pollingError := some pollingErrorMessage,
                      nextFetchId := 1, fetchesIssued := 1 }

/-- Witness for `tick_failure_transient` at `startedState`. -/
theorem tick_failure_transient_witness :
    tickFailWitnessEnd.task = startedState.task ∧
    tickFailWitnessEnd.pollingError = some pollingErrorMessage ∧
    tickFailWitnessEnd.error = startedState.error ∧
    tickFailWitnessEnd.isInitializing = startedState.isInitializing ∧
    tickFailWitnessEnd.intervalActive = true ∧
    tickFailWitnessEnd.inflight = startedState.inflight :=
  tick_failure_transient startedState tickFailWitnessEnd (by decide) (by decide)

/-- C8: a tick whose fetch succeeds replaces the cached TaskRecord
wholesale by the fetched record, clears any previously reported transient
error, leaves the fatal error, the initialization flag and the in-flight
bookkeeping untouched, and re-evaluates only the interval against the new
record's terminal-status guard. -/
theorem tick_success_frame (s s1 : EngineState) (r : TaskRecord)
    (hfresh : s.nextFetchId ∉ s.inflight)
    (h : runEvents s [PollEvent.tick, PollEvent.respond s.nextFetchId (some r)] = some s1) :
    s1.task = some r ∧ s1.pollingError = none ∧ s1.error = s.error ∧
      s1.isInitializing = s.isInitializing ∧ s1.inflight = s.inflight ∧
      s1.intervalActive = !(isTerminal r) := by
  cases hact : s.intervalActive with
  | false =>
    rw [runEvents] at h
    rw [show step s PollEvent.tick = none by simp [step, hact]] at h
    simp at h
  | true =>
    have hmem : s.nextFetchId ∈ s.inflight ++ [s.nextFetchId] := by simp
    have herase : (s.inflight ++ [s.nextFetchId]).erase s.nextFetchId = s.inflight := by
      rw [List.erase_append_right _ hfresh]
      simp
    rw [runEvents, step_tick_eq s hact, Option.some_bind, runEvents,
      step_respond_success_eq _ _ _ hmem, Option.some_bind, runEvents,
      Option.some.injEq] at h
    subst h
    exact ⟨rfl, rfl, rfl, rfl, herase, rfl⟩

/-- Witness state for `tick_success_frame`: the engine right after a
successful first poll from `startedState` returning `recProcessing`. -/
def tickSuccessWitnessEnd : EngineState :=
  { startedState with task := some recProcessing,
                      nextFetchId := 1, fetchesIssued := 1 }

/-- Witness for `tick_success_frame` at `startedState` with a processing
record. -/
theorem tick_success_frame_witness :
    tickSuccessWitnessEnd.task = some recProcessing ∧
    tickSuccessWitnessEnd.pollingError = none ∧
    tickSuccessWitnessEnd.error = startedState.error ∧
    tickSuccessWitnessEnd.isInitializing = startedState.isInitializing ∧
    tickSuccessWitnessEnd.inflight = startedState.inflight ∧
    tickSuccessWitnessEnd.intervalActive = !(isTerminal recProcessing) :=
  tick_success_frame startedState tickSuccessWitnessEnd recProcessing
    (by decide) (by decide)

/-- C3 counterexample: with two overlapping in-flight fetches, applying
the terminal record carried by the second fetch does not keep the
scheduler stopped — the late first response re-applies a non-terminal
record, the polling effect re-installs the interval, and a further fetch
is issued (fetch count grows from 2 to 3 after the terminal record was
applied). -/
theorem terminal_then_stale_restarts_polling_counterexample :
    (runEvents startedState
        [PollEvent.tick, PollEvent.tick,
         PollEvent.respond 1 (some recFinalized)]).map
        (fun s => (s.task, s.fetchesIssued)) = some (some recFinalized, 2) ∧
    isTerminal recFinalized = true ∧
    (runEvents startedState
        [PollEvent.tick, PollEvent.tick,
         PollEvent.respond 1 (some recFinalized),
         PollEvent.respond 0 (some recProcessing),
         PollEvent.tick]).map (fun s => s.fetchesIssued) = some 3 := by
  decide

/-- C3 amended: if a terminal record is applied while it answers the only
fetch in flight, the engine is quiescent: the interval is gone, the state
never changes again, and in particular zero further fetches are issued in
any subsequent execution. -/
theorem terminal_applied_quiescent (s s1 s2 : EngineState) (i : Nat)
    (r : TaskRecord) (tr : List PollEvent)
    (hin : s.inflight = [i]) (hterm : isTerminal r = true)
    (hstep : step s (PollEvent.respond i (some r)) = some s1)
    (hrun : runEvents s1 tr = some s2) :
    s2 = s1 ∧ s1.task = some r ∧ s1.intervalActive = false ∧
      s1.fetchesIssued = s.fetchesIssued := by
  have hmem : i ∈ s.inflight := by rw [hin]; exact List.mem_singleton.mpr rfl
  rw [step_respond_success_eq s i r hmem, Option.some.injEq] at hstep
  have hiact : s1.intervalActive = false := by
    rw [← hstep]
    simp [applyRecord, pollingEffect, hterm]
  have hifl : s1.inflight = [] := by
    rw [← hstep]
    simp [applyRecord, pollingEffect, hin]
  refine ⟨runEvents_dead s1 hiact hifl tr s2 hrun, ?_, hiact, ?_⟩
  · rw [← hstep]
    rfl
  · rw [← hstep]
    rfl

/-- Witness start state for `terminal_applied_quiescent`: one fetch in
flight against a processing task. -/
def quiescentWitnessStart : EngineState :=
  { task := some recProcessing, pollingError := none, error := none,
    isInitializing := false, intervalActive := true, inflight := [0],
    nextFetchId := 1, fetchesIssued := 1 }

/-- Witness end state for `terminal_applied_quiescent`. -/
def quiescentWitnessEnd : EngineState :=
  { quiescentWitnessStart with task := some recFinalized,
                               intervalActive := false, inflight := [] }

/-- Witness for `terminal_applied_quiescent` on concrete states. -/
theorem terminal_applied_quiescent_witness :
    quiescentWitnessEnd = quiescentWitnessEnd ∧
    quiescentWitnessEnd.task = some recFinalized ∧
    quiescentWitnessEnd.intervalActive = false ∧
    quiescentWitnessEnd.fetchesIssued = quiescentWitnessStart.fetchesIssued :=
  terminal_applied_quiescent quiescentWitnessStart quiescentWitnessEnd
    quiescentWitnessEnd 0 recFinalized [] rfl (by decide) (by decide) rfl

/-- C1: the interval callback applies every response with an unguarded
`setTask`; when requests R1 (fetch 0) and R2 (fetch 1) overlap and R2's
response is applied first, R1's late response overwrites it, so the
finally cached record is R1's, not R2's. -/
theorem stale_response_overwrites_newer :
    (runEvents startedState
        [PollEvent.tick, PollEvent.tick,
         PollEvent.respond 1 (some recFinalized),
         PollEvent.respond 0 (some recProcessing)]).map (fun s => s.task) =
      some (some recProcessing) ∧
    recProcessing ≠ recFinalized := by
  decide
